import Mathlib

/-!
Shallow embedding of the Food-Bank-Database repository
(src/barcode_detector.py, src/main.py, src/crud.py) in Lean 4,
together with theorems settling the specification claims.

Strings are manipulated through their character lists; Python string
primitives (strip, split, isdigit) are modelled explicitly below.
-/

namespace FoodBank

/- ### Python string primitives -/

/-- Characters removed by the Python str.strip() default whitespace set
(space, tab, newline, carriage return, vertical tab, form feed). -/
def isPySpace (c : Char) : Bool :=
  c = ' ' || c = '\t' || c = '\n' || c = '\r' || c.toNat = 0x0B || c.toNat = 0x0C

/-- Python str.strip(): drop leading and trailing whitespace characters. -/
def pyStrip (s : String) : String :=
  String.mk (((s.data.dropWhile isPySpace).reverse.dropWhile isPySpace).reverse)

/-- Python str.split(sep) for a one-character separator: split on every
occurrence of sep, keeping empty tokens; the empty string yields one
empty token. -/
def pySplit (sep : Char) : List Char → List (List Char)
  | [] => [[]]
  | c :: cs =>
    if c = sep then [] :: pySplit sep cs
    else
      match pySplit sep cs with
      | [] => [[c]]
      | t :: ts => (c :: t) :: ts

/-- Python str.split on a String, producing Strings. -/
def pySplitStr (s : String) (sep : Char) : List String :=
  (pySplit sep s.data).map String.mk

/-- Per-character model of Python str.isdigit(): true for characters of
Unicode Numeric_Type Decimal or Digit.  We model the ASCII digits plus the
common non-ASCII decimal-digit ranges and the Latin-1 superscript digits,
which is exact on every character appearing in this development; the full
Unicode table extends the same pattern to further scripts. -/
def pyIsDigitChar (c : Char) : Bool :=
  (0x30 ≤ c.toNat && c.toNat ≤ 0x39) ||      -- ASCII 0-9
  c.toNat = 0xB2 || c.toNat = 0xB3 || c.toNat = 0xB9 ||  -- superscript 2, 3, 1
  (0x660 ≤ c.toNat && c.toNat ≤ 0x669) ||    -- Arabic-Indic digits
  (0x6F0 ≤ c.toNat && c.toNat ≤ 0x6F9) ||    -- extended Arabic-Indic digits
  (0x966 ≤ c.toNat && c.toNat ≤ 0x96F) ||    -- Devanagari digits
  (0xFF10 ≤ c.toNat && c.toNat ≤ 0xFF19)     -- fullwidth digits

/-- Python str.isdigit(): non-empty and every character is a digit. -/
def pyStrIsDigit (s : String) : Bool :=
  !(s.data.isEmpty) && s.data.all pyIsDigitChar

/- ### src/barcode_detector.py -/

/-- validate_barcode_format (barcode_detector.py lines 91-102):
reject non-digit strings, then accept exactly the lengths 8, 12, 13, 14. -/
def validate_barcode_format (barcode : String) : Bool :=
  if !(pyStrIsDigit barcode) then false
  else
    let length := barcode.length
    let valid_lengths : List Nat := [8, 12, 13, 14]
    decide (length ∈ valid_lengths)

/-- The OpenCV and pyzbar primitives used by barcode_detector.py, over an
abstract pixel-grid type Img.  imdecode returns none when the byte buffer
is not a decodable image (cv2.imdecode returning None); pyzbar_decode
returns the decoded texts of the symbols found in a grid (empty when
none decode, per pyzbar semantics, which never raises on clean input). -/
structure CV (Img : Type) where
  imdecode : List Nat → Option Img
  cvtColor_gray : Img → Img
  threshold128 : Img → Img
  adaptiveThreshold : Img → Img
  pyzbar_decode : Img → List String

/-- preprocess_image (barcode_detector.py lines 67-88): grayscale of the
original, then fixed threshold of the grayscale, then adaptive threshold
of the grayscale, in that order. -/
def preprocess_image {Img : Type} (cv : CV Img) (img : Img) : List Img :=
  let gray := cv.cvtColor_gray img
  [gray, cv.threshold128 gray, cv.adaptiveThreshold gray]

/-- The for-loop of barcode_detector.py lines 52-57 followed by the final
return [] of line 60: scan the variants in order, returning the decode of
the first variant with a non-empty decode. -/
def scanVariants {Img : Type} (cv : CV Img) : List Img → List String
  | [] => []
  | v :: vs =>
    let r := cv.pyzbar_decode v
    if r ≠ [] then r else scanVariants cv vs

/-- Instrumented version of the variant loop: also returns the list of
variants on which the detector was actually invoked, in order. -/
def scanVariantsTraced {Img : Type} (cv : CV Img) : List Img → List String × List Img
  | [] => ([], [])
  | v :: vs =>
    let r := cv.pyzbar_decode v
    if r ≠ [] then (r, [v])
    else
      let p := scanVariantsTraced cv vs
      (p.1, v :: p.2)

/-- Lines 41-60 of barcode_detector.py, from a decoded image: try the
original image first, then the preprocessing cascade. -/
def detect_from_image {Img : Type} (cv : CV Img) (img : Img) : List String :=
  let barcodes := cv.pyzbar_decode img
  if barcodes ≠ [] then barcodes
  else scanVariants cv (preprocess_image cv img)

/-- Instrumented version of detect_from_image: also records every grid the
detector was invoked on (the original first, then scanned variants). -/
def detect_from_image_traced {Img : Type} (cv : CV Img) (img : Img) :
    List String × List Img :=
  let barcodes := cv.pyzbar_decode img
  if barcodes ≠ [] then (barcodes, [img])
  else
    let p := scanVariantsTraced cv (preprocess_image cv img)
    (p.1, img :: p.2)

/-- detect_barcodes_with_preprocessing (barcode_detector.py lines 16-64),
from the already base64-decoded byte buffer.  The whole body sits in a
try/except that returns [] on any exception, and cv2.imdecode signals an
undecodable buffer by returning None (line 37), answered by return []
(line 39); the embedded operations are total, so the embedding returns
the try-body value directly. -/
def detect_barcodes_with_preprocessing {Img : Type} (cv : CV Img)
    (buf : List Nat) : List String :=
  match cv.imdecode buf with
  | none => []
  | some img => detect_from_image cv img

/- ### Python numeric rounding -/

/-- Python round(x) on an exact rational: round half to even (bankers
rounding).  Binary floating-point representation error is not modelled;
no claim in this development depends on a rounded value. -/
def pyRoundHalfEven (q : ℚ) : ℤ :=
  let f : ℤ := ⌊q⌋
  let frac : ℚ := q - f
  if frac < 1/2 then f
  else if 1/2 < frac then f + 1
  else if f % 2 = 0 then f else f + 1

/-- Python round(x, 2). -/
def pyRound2 (q : ℚ) : ℚ :=
  (pyRoundHalfEven (q * 100) : ℚ) / 100

/- ### OpenFoodFacts payload (main.py lines 291-312) -/

/-- The nutriments map of an OpenFoodFacts product, restricted to the keys
read by main.py; a field is none when the key is absent. -/
structure Nutriments where
  energy_kcal_100g : Option ℚ := none
  proteins_100g : Option ℚ := none
  fat_100g : Option ℚ := none
  carbohydrates_100g : Option ℚ := none
  fiber_100g : Option ℚ := none
  sugars_100g : Option ℚ := none
  sodium_100g : Option ℚ := none
  deriving DecidableEq

/-- The product object of an OpenFoodFacts response, restricted to the keys
read by main.py; a field is none when the key is absent.  An absent
nutriments key is the empty map (product.get with default empty dict at
line 296), represented by the all-none Nutriments. -/
structure OFFProduct where
  product_name : Option String := none
  brands : Option String := none
  categories : Option String := none
  nutriments : Nutriments := {}
  allergens : Option String := none
  deriving DecidableEq

/-- Python truthiness of dict.get on a string-valued key: false for an
absent key (None) and for the empty string. -/
def truthyStr : Option String → Bool
  | none => false
  | some s => s ≠ ""

/-- Python truthiness of dict.get on a numeric key: false for an absent
key (None) and for zero. -/
def truthyQ : Option ℚ → Bool
  | none => false
  | some v => v ≠ 0

/- ### Normalization (main.py lines 296-315) -/

/-- The food_data dict exactly as built at main.py lines 298-312, before
the filtering comprehension of line 315. -/
structure FoodData where
  barcode : String
  name : String
  brand : Option String
  category : Option String
  calories : Option ℤ
  protein : Option ℚ
  fat : Option ℚ
  carbs : Option ℚ
  fiber : Option ℚ
  sugars : Option ℚ
  sodium : Option ℚ
  allergens : List String
  quantity : Nat
  deriving DecidableEq

/-- main.py lines 298-312: build the food_data dict from the product. -/
def build_food_data (barcode : String) (product : OFFProduct) : FoodData :=
  let nutriments := product.nutriments
  { barcode := barcode
    name := pyStrip (product.product_name.getD "Unknown Product")
    brand :=
      let b := pyStrip (product.brands.getD "")
      if b = "" then none else some b
    category :=
      if truthyStr product.categories then
        some (pyStrip ((pySplitStr (product.categories.getD "") ',').headD ""))
      else none
    calories :=
      if truthyQ nutriments.energy_kcal_100g then
        some (pyRoundHalfEven (nutriments.energy_kcal_100g.getD 0))
      else none
    protein :=
      if truthyQ nutriments.proteins_100g then
        some (pyRound2 (nutriments.proteins_100g.getD 0))
      else none
    fat :=
      if truthyQ nutriments.fat_100g then
        some (pyRound2 (nutriments.fat_100g.getD 0))
      else none
    carbs :=
      if truthyQ nutriments.carbohydrates_100g then
        some (pyRound2 (nutriments.carbohydrates_100g.getD 0))
      else none
    fiber :=
      if truthyQ nutriments.fiber_100g then
        some (pyRound2 (nutriments.fiber_100g.getD 0))
      else none
    sugars :=
      if truthyQ nutriments.sugars_100g then
        some (pyRound2 (nutriments.sugars_100g.getD 0))
      else none
    sodium :=
      if truthyQ nutriments.sodium_100g then
        some (pyRound2 (nutriments.sodium_100g.getD 0))
      else none
    allergens :=
      if truthyStr product.allergens then
        pySplitStr (product.allergens.getD "") ','
      else []
    quantity := 1 }

/-- The food_data dict after the filtering comprehension of main.py line
315, which keeps an entry iff its value is not None, not the empty string
and not the empty list; a none field here means the key was dropped. -/
structure NormalizedRecord where
  barcode : Option String
  name : Option String
  brand : Option String
  category : Option String
  calories : Option ℤ
  protein : Option ℚ
  fat : Option ℚ
  carbs : Option ℚ
  fiber : Option ℚ
  sugars : Option ℚ
  sodium : Option ℚ
  allergens : Option (List String)
  quantity : Option Nat
  deriving DecidableEq

/-- The per-entry filter of main.py line 315 on a string value: drop None
and drop the empty string. -/
def dropEmptyStr : Option String → Option String
  | none => none
  | some s => if s = "" then none else some s

/-- main.py lines 298-315 in one step: build food_data, then apply the
filtering comprehension.  Numeric values are dropped only when None (the
comprehension tests for empty string and empty list do not affect
integers or floats); the quantity entry is the integer 1, always kept. -/
def normalize (barcode : String) (product : OFFProduct) : NormalizedRecord :=
  let fd := build_food_data barcode product
  { barcode := dropEmptyStr (some fd.barcode)
    name := dropEmptyStr (some fd.name)
    brand := dropEmptyStr fd.brand
    category := dropEmptyStr fd.category
    calories := fd.calories
    protein := fd.protein
    fat := fd.fat
    carbs := fd.carbs
    fiber := fd.fiber
    sugars := fd.sugars
    sodium := fd.sodium
    allergens := if fd.allergens = [] then none else some fd.allergens
    quantity := some fd.quantity }

/- ### Store and CRUD operations (src/crud.py, src/models.py) -/

/-- A persisted Food row: generated id, barcode column, and the rest of
the stored fields, kept as the normalized dict that created the row
(models.py Food; to_dict returns these contents). -/
structure StoredFood where
  id : String
  barcode : String
  fields : NormalizedRecord
  deriving DecidableEq

/-- A NutritionLog row (models.py NutritionLog): quantity is the Integer
column, action the String column. -/
structure NutritionLogEntry where
  food_id : String
  quantity : ℤ
  action : String
  deriving DecidableEq

/-- The relational store: the foods table in insertion order and the
nutrition_logs table in insertion order. -/
structure DBState where
  foods : List StoredFood
  logs : List NutritionLogEntry
  deriving DecidableEq

/-- crud.py get_food_by_barcode (lines 45-56): first row whose barcode
column matches. -/
def get_food_by_barcode (db : DBState) (barcode : String) : Option StoredFood :=
  (db.foods.filter (fun f => f.barcode == barcode)).head?

/-- crud.py get_food_by_id (lines 59-70): first row whose id matches. -/
def get_food_by_id (db : DBState) (food_id : String) : Option StoredFood :=
  (db.foods.filter (fun f => f.id == food_id)).head?

/-- crud.py create_food (lines 21-42): insert a new Food row built from
the food_data dict and return it.  The generated uuid id is passed in as
newId to model its nondeterministic generation; the barcode column comes
from the barcode entry of the dict (always the validated barcode in the
upload workflow). -/
def create_food (db : DBState) (newId : String) (barcode : String)
    (fields : NormalizedRecord) : DBState × StoredFood :=
  let food : StoredFood := { id := newId, barcode := barcode, fields := fields }
  ({ db with foods := db.foods ++ [food] }, food)

/-- crud.py update_quantity (lines 140-175): look up the food by id; when
found, append a NutritionLog row whose quantity is abs(quantity_change)
and whose action is the given action tag, and return the food.  The food
quantity column itself is adjusted by a database trigger, outside this
code (comment at line 166), so the foods table is unchanged here. -/
def update_quantity (db : DBState) (food_id : String) (quantity_change : ℤ)
    (action : String) : DBState × Option StoredFood :=
  match get_food_by_id db food_id with
  | none => (db, none)
  | some food =>
    let nutrition_log : NutritionLogEntry :=
      { food_id := food_id, quantity := |quantity_change|, action := action }
    ({ db with logs := db.logs ++ [nutrition_log] }, some food)

/- ### The upload endpoint from the catalog lookup on (main.py 271-366) -/

/-- A Python exception raised inside the outer try of
upload_barcode_image that is not an HTTPException. -/
inductive PyExc where
  | keyError (key : String)
  deriving DecidableEq

/-- str(e) for the modelled exceptions: str of a KeyError is the missing
key wrapped in single quote marks. -/
def strOfExc : PyExc → String
  | .keyError key => "\x27" ++ key ++ "\x27"

/-- The parts of the OpenFoodFacts HTTP response read by main.py:
the HTTP status code, the status field of the JSON body (none when the
key is absent) and the product object of the body (none when absent). -/
structure OFFResponse where
  status_code : Nat
  status : Option ℤ := none
  product : Option OFFProduct := none
  deriving DecidableEq

/-- Outcome of requests.get at main.py line 275: either the call raised
(timeout, connection failure, or a JSON parse failure inside the inner
try, all caught at line 283), or it returned a response. -/
inductive LookupResult where
  | raised (msg : String)
  | ok (r : OFFResponse)
  deriving DecidableEq

/-- The product_data field of a response: either the to_dict() of a
stored Food row (existing or freshly created) or the plain food_data
dict computed in this request. -/
inductive ProductData where
  | stored (f : StoredFood)
  | fresh (r : NormalizedRecord)
  deriving DecidableEq

/-- schemas.py BarcodeImageUploadResponse. -/
structure BarcodeImageUploadResponse where
  success : Bool
  barcode : Option String := none
  product_data : Option ProductData := none
  message : String
  error : Option String := none
  deriving DecidableEq

/-- main.py lines 318-349, the scan_and_save branch: look the barcode up
first; when a row exists return it unchanged without writing; otherwise
create the row and return it.  The inner except of lines 342-349 (a
storage failure downgraded to returning food_data) is unreachable in
this model because the modelled store operations are total. -/
def scan_and_save_branch (db : DBState) (barcode : String)
    (food_data : NormalizedRecord) (newId : String) :
    DBState × BarcodeImageUploadResponse :=
  match get_food_by_barcode db barcode with
  | some existing_food =>
    (db, { success := true, barcode := some barcode,
           product_data := some (.stored existing_food),
           message := "Barcode detected and food already exists in database" })
  | none =>
    let created := create_food db newId barcode food_data
    (created.1, { success := true, barcode := some barcode,
                  product_data := some (.stored created.2),
                  message := "Barcode detected and product saved to database" })

/-- main.py lines 274-357, from the catalog lookup on, given the already
validated barcode: the inner try around requests.get returns the
fetch-error response on a raise; a non-200 code or an explicit status 0
returns the barcode-only response; otherwise reading the product key of
the body raises KeyError when absent (line 291, outside the inner try),
and the normalize-then-persist-or-return logic runs on the product. -/
def afterLookup (lr : LookupResult) (barcode : String) (action : String)
    (db : DBState) (newId : String) :
    Except PyExc (DBState × BarcodeImageUploadResponse) :=
  match lr with
  | .raised msg =>
    .ok (db, { success := false,
               message := "Error fetching product data from OpenFoodFacts",
               error := some msg })
  | .ok r =>
    if r.status_code ≠ 200 ∨ r.status = some 0 then
      .ok (db, { success := true, barcode := some barcode,
                 message := "Barcode detected but product not found in OpenFoodFacts database" })
    else
      match r.product with
      | none => .error (.keyError "product")
      | some product =>
        let food_data := normalize barcode product
        if action = "scan_and_save" then
          .ok (scan_and_save_branch db barcode food_data newId)
        else
          .ok (db, { success := true, barcode := some barcode,
                     product_data := some (.fresh food_data),
                     message := "Barcode detected successfully" })

/-- What the HTTP boundary delivers for this request: a normal response
together with the resulting store, or an HTTP error status with detail. -/
inductive EndpointResult where
  | ok (db : DBState) (resp : BarcodeImageUploadResponse)
  | httpError (code : Nat) (detail : String)
  deriving DecidableEq

/-- The outer try of upload_barcode_image applied to the post-lookup
logic (main.py lines 359-366): a non-HTTPException exception escaping
the body is mapped to a 500 with the formatted detail string. -/
def upload_after_lookup (lr : LookupResult) (barcode : String)
    (action : String) (db : DBState) (newId : String) : EndpointResult :=
  match afterLookup lr barcode action db newId with
  | .ok res => .ok res.1 res.2
  | .error e => .httpError 500 ("Error processing barcode image: " ++ strOfExc e)

/- ### Concrete instantiation used by witnesses -/

/-- A concrete CV instance over Nat grids: the original image 0 decodes
to no symbol, its grayscale variant is 1 (no symbol), the fixed
threshold variant is 2 where a symbol decodes, the adaptive variant 3 is
never reached. -/
def cvW : CV Nat :=
  { imdecode := fun _ => some 0
    cvtColor_gray := fun _ => 1
    threshold128 := fun _ => 2
    adaptiveThreshold := fun _ => 3
    pyzbar_decode := fun n => if n = 2 then ["00000000"] else [] }

/-- A concrete CV instance over Nat grids whose imdecode always fails. -/
def cvNone : CV Nat :=
  { imdecode := fun _ => none
    cvtColor_gray := fun _ => 1
    threshold128 := fun _ => 2
    adaptiveThreshold := fun _ => 3
    pyzbar_decode := fun _ => [] }

/-- A concrete stored row used by witnesses. -/
def storedW : StoredFood :=
  { id := "id-existing", barcode := "00000000",
    fields := { barcode := some "00000000", name := some "Stored Item",
                brand := none, category := none, calories := none,
                protein := none, fat := none, carbs := none, fiber := none,
                sugars := none, sodium := none, allergens := none,
                quantity := some 3 } }

/-- A concrete store holding exactly storedW. -/
def dbW : DBState := { foods := [storedW], logs := [] }

/-- A concrete freshly normalized candidate record, distinct from the
fields of storedW, used by witnesses. -/
def candW : NormalizedRecord :=
  { barcode := some "00000000", name := some "Fresh Item", brand := none,
    category := none, calories := some 120, protein := none, fat := none,
    carbs := none, fiber := none, sugars := none, sodium := none,
    allergens := none, quantity := some 1 }

/- ### Helper lemmas -/

/-- Python str.split always yields at least one token. -/
theorem pySplit_ne_nil (sep : Char) (l : List Char) : pySplit sep l ≠ [] := by
  cases l with
  | nil => simp [pySplit]
  | cons c cs =>
    by_cases h : c = sep
    · simp [pySplit, h]
    · cases hr : pySplit sep cs with
      | nil => simp [pySplit, h, hr]
      | cons t ts => simp [pySplit, h, hr]

/-- Python str.split on a String always yields at least one token. -/
theorem pySplitStr_ne_nil (s : String) (sep : Char) : pySplitStr s sep ≠ [] := by
  simp only [pySplitStr, ne_eq, List.map_eq_nil_iff]
  exact pySplit_ne_nil sep s.data

/-- Python truthiness of an absent-or-zero numeric field is false. -/
theorem truthyQ_eq_false {o : Option ℚ} (h : o = none ∨ o = some 0) :
    truthyQ o = false := by
  rcases h with h | h <;> simp [truthyQ, h]

/-- The result component of the traced variant scan agrees with the
untraced loop of the source. -/
theorem scanVariantsTraced_fst {Img : Type} (cv : CV Img) (l : List Img) :
    (scanVariantsTraced cv l).1 = scanVariants cv l := by
  induction l with
  | nil => rfl
  | cons v vs ih =>
    simp only [scanVariantsTraced, scanVariants]
    by_cases h : cv.pyzbar_decode v ≠ []
    · simp [h]
    · simp [h, ih]

/-- Scanning a variant list whose first success sits after a failing
prefix stops exactly at the first success. -/
theorem scanVariantsTraced_first_success {Img : Type} (cv : CV Img)
    (l1 : List Img) (v : Img) (l2 : List Img)
    (h1 : ∀ u ∈ l1, cv.pyzbar_decode u = [])
    (hv : cv.pyzbar_decode v ≠ []) :
    scanVariantsTraced cv (l1 ++ v :: l2) = (cv.pyzbar_decode v, l1 ++ [v]) := by
  induction l1 with
  | nil => simp [scanVariantsTraced, hv]
  | cons u us ih =>
    have hu : cv.pyzbar_decode u = [] := h1 u (List.mem_cons_self u us)
    have ih2 := ih (fun x hx => h1 x (List.mem_cons_of_mem u hx))
    simp [scanVariantsTraced, hu, ih2]

/- ### Claim theorems -/

/-- C4 (amended): the format validator returns true iff every character of
the text is a Python digit (Unicode Numeric_Type Decimal or Digit, per
str.isdigit, which includes non-ASCII digit characters) and the length is
exactly one of 8, 12, 13, 14. -/
theorem C4_validator_digits_and_length (s : String) :
    validate_barcode_format s = true ↔
      ((∀ c ∈ s.data, pyIsDigitChar c = true) ∧
       (s.length = 8 ∨ s.length = 12 ∨ s.length = 13 ∨ s.length = 14)) := by
  obtain ⟨l⟩ := s
  show validate_barcode_format (String.mk l) = true ↔
      ((∀ c ∈ l, pyIsDigitChar c = true) ∧
       (l.length = 8 ∨ l.length = 12 ∨ l.length = 13 ∨ l.length = 14))
  have hval : validate_barcode_format (String.mk l) =
      (if !(!(l.isEmpty) && l.all pyIsDigitChar) then false
       else decide (l.length ∈ ([8, 12, 13, 14] : List Nat))) := rfl
  rw [hval]
  cases hE : l.isEmpty with
  | true =>
    rw [List.isEmpty_iff.mp hE]
    simp
  | false =>
    cases hA : l.all pyIsDigitChar with
    | false =>
      constructor
      · intro h; simp at h
      · rintro ⟨hc, -⟩
        have hA2 : l.all pyIsDigitChar = true := List.all_eq_true.mpr hc
        rw [hA] at hA2; cases hA2
    | true =>
      have hall := List.all_eq_true.mp hA
      have hcond : (!(!(false : Bool) && true)) = false := by decide
      rw [hcond, if_neg (by decide : ¬((false : Bool) = true)), decide_eq_true_eq]
      simp only [List.mem_cons, List.not_mem_nil, or_false]
      exact ⟨fun h => ⟨hall, h⟩, fun h => h.2⟩

/-- C4 counterexample: a string of eight superscript-two characters is
accepted by the validator, yet none of its characters is an ASCII decimal
digit, refuting the claim that accepted strings consist solely of ASCII
digits (Python str.isdigit accepts Unicode digits). -/
theorem C4_counterexample_superscripts :
    validate_barcode_format "²²²²²²²²" = true ∧
    ¬(∀ c ∈ ("²²²²²²²²" : String).data, '0' ≤ c ∧ c ≤ '9') := by
  constructor
  · decide
  · decide

/-- C4 witness: the amended equivalence evaluated at a concrete accepted
barcode. -/
theorem C4_witness_accepts_ean8 :
    validate_barcode_format "12345678" = true :=
  (C4_validator_digits_and_length "12345678").mpr ⟨by decide, by decide⟩

/-- C5 (confirmed): the cascade produces the grayscale, fixed-threshold
and adaptive-threshold variants in exactly that order; the traced
pipeline result agrees with the plain source loop; when the detector
succeeds on the original decoded image the result is returned with the
detector invoked only on the original; otherwise the pipeline returns
the detector result on the first variant with a non-empty result and the
detector is never invoked on any later variant (the trace ends at the
first success). -/
theorem C5_cascade_order_and_early_exit {Img : Type} (cv : CV Img) (img : Img) :
    preprocess_image cv img =
      [cv.cvtColor_gray img, cv.threshold128 (cv.cvtColor_gray img),
       cv.adaptiveThreshold (cv.cvtColor_gray img)] ∧
    (detect_from_image_traced cv img).1 = detect_from_image cv img ∧
    (cv.pyzbar_decode img ≠ [] →
      detect_from_image_traced cv img = (cv.pyzbar_decode img, [img])) ∧
    (cv.pyzbar_decode img = [] →
      ∀ l1 v l2, preprocess_image cv img = l1 ++ v :: l2 →
        (∀ u ∈ l1, cv.pyzbar_decode u = []) →
        cv.pyzbar_decode v ≠ [] →
        detect_from_image_traced cv img =
          (cv.pyzbar_decode v, img :: (l1 ++ [v]))) := by
  refine ⟨rfl, ?_, ?_, ?_⟩
  · simp only [detect_from_image_traced, detect_from_image]
    by_cases h : cv.pyzbar_decode img ≠ []
    · simp [h]
    · simp [h, scanVariantsTraced_fst]
  · intro h
    simp [detect_from_image_traced, h]
  · intro h l1 v l2 hpre h1 hv
    simp only [detect_from_image_traced, h, ne_eq, not_true_eq_false,
      if_false, ite_false]
    rw [hpre, scanVariantsTraced_first_success cv l1 v l2 h1 hv]

/-- C5 witness: with the concrete cvW instance the original image yields
nothing, the grayscale variant yields nothing, and the fixed-threshold
variant decodes; the traced pipeline returns that result having scanned
exactly the original, the grayscale and the threshold variant. -/
theorem C5_witness_threshold_success :
    detect_from_image_traced cvW 0 = (["00000000"], [0, 1, 2]) := by
  have h := (C5_cascade_order_and_early_exit cvW 0).2.2.2 (by decide)
    [1] 2 [3] (by decide) (by decide) (by decide)
  rw [h]; decide

/-- C7 (confirmed): when the byte buffer does not decode as an image
(cv2.imdecode returns None), the pipeline returns the empty list; the
surrounding try/except of the source returns [] on any exception, and
every operation of this embedding is a total function, so no exception
reaches the caller. -/
theorem C7_undecodable_buffer_empty {Img : Type} (cv : CV Img) (buf : List Nat)
    (h : cv.imdecode buf = none) :
    detect_barcodes_with_preprocessing cv buf = [] := by
  simp [detect_barcodes_with_preprocessing, h]

/-- C7 witness: the theorem applied to a concrete undecodable buffer. -/
theorem C7_witness_empty_result :
    detect_barcodes_with_preprocessing cvNone [0, 1, 2] = [] :=
  C7_undecodable_buffer_empty cvNone [0, 1, 2] rfl

/-- C2 (amended): for every payload whose allergens field is a non-empty
string, the normalized allergens list is the comma-split token list in
source order, with NO whitespace trimming of the tokens (the source
splits without stripping). -/
theorem C2_allergens_split_untrimmed (b : String) (p : OFFProduct) (s : String)
    (hs : p.allergens = some s) (hne : s ≠ "") :
    (normalize b p).allergens = some (pySplitStr s ',') := by
  have ht : truthyStr p.allergens = true := by simp [truthyStr, hs, hne]
  have hfd : (build_food_data b p).allergens =
      (if truthyStr p.allergens then pySplitStr (p.allergens.getD "") ',' else []) := rfl
  have hrec : (normalize b p).allergens =
      (if (build_food_data b p).allergens = [] then none
       else some (build_food_data b p).allergens) := rfl
  rw [hrec, hfd, ht, if_pos rfl, hs]
  simp only [Option.getD_some]
  rw [if_neg (pySplitStr_ne_nil s ',')]

/-- C2 counterexample: the source string with a space after the comma
yields a token that keeps its leading space, so the normalized list is
not the trimmed list claimed by the spec. -/
theorem C2_counterexample_milk_soy :
    (normalize "00000000" { allergens := some "milk, soy" }).allergens =
      some ["milk", " soy"] ∧
    some ["milk", " soy"] ≠ some ["milk", "soy"] := by
  constructor
  · decide
  · decide

/-- C2 witness: the amended theorem applied to a concrete payload with no
spaces around the comma. -/
theorem C2_witness_nuts_egg :
    (normalize "00000000" { allergens := some "nuts,egg" }).allergens =
      some ["nuts", "egg"] := by
  have h := C2_allergens_split_untrimmed "00000000"
    { allergens := some "nuts,egg" } "nuts,egg" rfl (by decide)
  rw [h]; decide

/-- C3 (amended): the normalized name equals the trimmed product-name
when that trim is non-empty, equals "Unknown Product" when the
product-name key is absent, and is ABSENT from the record (dropped by
the empty-value filter) when the product-name is present but trims to
the empty string — so the name field is not always present. -/
theorem C3_name_rules (b : String) (p : OFFProduct) :
    (p.product_name = none → (normalize b p).name = some "Unknown Product") ∧
    (∀ s, p.product_name = some s → pyStrip s ≠ "" →
      (normalize b p).name = some (pyStrip s)) ∧
    (∀ s, p.product_name = some s → pyStrip s = "" →
      (normalize b p).name = none) := by
  have hname : (normalize b p).name =
      dropEmptyStr (some (pyStrip (p.product_name.getD "Unknown Product"))) := rfl
  refine ⟨?_, ?_, ?_⟩
  · intro h
    rw [hname, h]; decide
  · intro s hs hne
    rw [hname, hs]
    simp only [Option.getD_some, dropEmptyStr]
    rw [if_neg hne]
  · intro s hs he
    rw [hname, hs]
    simp [Option.getD_some, dropEmptyStr, he]

/-- C3 counterexample: a whitespace-only product-name strips to the empty
string and the name key is dropped, so the record does not carry the name
"Unknown Product" and the name field is not present. -/
theorem C3_counterexample_blank_name :
    (normalize "00000000" { product_name := some "   " }).name = none ∧
    (normalize "00000000" { product_name := some "   " }).name ≠
      some "Unknown Product" := by
  constructor
  · decide
  · decide

/-- C3 witness: the amended theorem applied to a concrete product-name
with surrounding whitespace. -/
theorem C3_witness_trimmed_name :
    (normalize "00000000" { product_name := some " Oats " }).name =
      some "Oats" := by
  have h := (C3_name_rules "00000000" { product_name := some " Oats " }).2.1
    " Oats " rfl (by decide)
  rw [h]; decide

/-- C6 (confirmed): each nutrient field whose per-100g source value is
missing or zero is absent from the normalized record rather than set to
zero (Python truthiness treats both None and 0 as false). -/
theorem C6_zero_nutrients_absent (b : String) (p : OFFProduct) :
    ((p.nutriments.energy_kcal_100g = none ∨ p.nutriments.energy_kcal_100g = some 0) →
      (normalize b p).calories = none) ∧
    ((p.nutriments.proteins_100g = none ∨ p.nutriments.proteins_100g = some 0) →
      (normalize b p).protein = none) ∧
    ((p.nutriments.fat_100g = none ∨ p.nutriments.fat_100g = some 0) →
      (normalize b p).fat = none) ∧
    ((p.nutriments.carbohydrates_100g = none ∨ p.nutriments.carbohydrates_100g = some 0) →
      (normalize b p).carbs = none) ∧
    ((p.nutriments.fiber_100g = none ∨ p.nutriments.fiber_100g = some 0) →
      (normalize b p).fiber = none) ∧
    ((p.nutriments.sugars_100g = none ∨ p.nutriments.sugars_100g = some 0) →
      (normalize b p).sugars = none) ∧
    ((p.nutriments.sodium_100g = none ∨ p.nutriments.sodium_100g = some 0) →
      (normalize b p).sodium = none) := by
  refine ⟨fun h => ?_, fun h => ?_, fun h => ?_, fun h => ?_,
    fun h => ?_, fun h => ?_, fun h => ?_⟩ <;>
  · simp only [normalize, build_food_data, truthyQ_eq_false h,
      Bool.false_eq_true, if_false]

/-- C6 witness: a payload whose only nutrient entry is proteins_100g = 0
yields a record with the protein field absent. -/
theorem C6_witness_zero_protein :
    (normalize "00000000" { nutriments := { proteins_100g := some 0 } }).protein =
      none :=
  (C6_zero_nutrients_absent "00000000"
    { nutriments := { proteins_100g := some 0 } }).2.1 (Or.inr rfl)

/-- C1 (amended): when the catalog HTTP request itself raises (timeout or
network failure), the workflow returns an ERROR outcome — success false,
no barcode, error message set — while only a completed response with a
non-200 code or an explicit not-found status yields the normal
barcode-only outcome (success true with the barcode and no product
data); the two outcomes are distinct. -/
theorem C1_network_error_outcome (msg b action : String) (db : DBState)
    (newId : String) :
    (afterLookup (.raised msg) b action db newId =
      .ok (db, { success := false, barcode := none, product_data := none,
                 message := "Error fetching product data from OpenFoodFacts",
                 error := some msg })) ∧
    (∀ r : OFFResponse, (r.status_code ≠ 200 ∨ r.status = some 0) →
      afterLookup (.ok r) b action db newId =
        .ok (db, { success := true, barcode := some b, product_data := none,
                   message := "Barcode detected but product not found in OpenFoodFacts database",
                   error := none })) := by
  refine ⟨rfl, ?_⟩
  intro r hr
  simp only [afterLookup]
  rw [if_pos hr]

/-- C1 counterexample: a raised network timeout produces the fetch-error
response (success false, no barcode), which differs from the
barcode-only response produced by a completed 404 — refuting the claim
that both paths return the same BarcodeOnly outcome. -/
theorem C1_counterexample_timeout :
    (afterLookup (.raised "timed out") "00000000" "scan"
        { foods := [], logs := [] } "id1" =
      .ok ({ foods := [], logs := [] },
           { success := false, barcode := none, product_data := none,
             message := "Error fetching product data from OpenFoodFacts",
             error := some "timed out" })) ∧
    (afterLookup (.ok { status_code := 404 }) "00000000" "scan"
        { foods := [], logs := [] } "id1" =
      .ok ({ foods := [], logs := [] },
           { success := true, barcode := some "00000000", product_data := none,
             message := "Barcode detected but product not found in OpenFoodFacts database",
             error := none })) ∧
    ({ success := false, barcode := none, product_data := none,
       message := "Error fetching product data from OpenFoodFacts",
       error := some "timed out" } : BarcodeImageUploadResponse) ≠
      { success := true, barcode := some "00000000", product_data := none,
        message := "Barcode detected but product not found in OpenFoodFacts database",
        error := none } := by
  refine ⟨rfl, rfl, by decide⟩

/-- C1 witness: the amended theorem applied at a concrete completed 404
response. -/
theorem C1_witness_not_found_404 :
    afterLookup (.ok { status_code := 404 }) "00000000" "scan"
        { foods := [], logs := [] } "id1" =
      .ok ({ foods := [], logs := [] },
           { success := true, barcode := some "00000000", product_data := none,
             message := "Barcode detected but product not found in OpenFoodFacts database",
             error := none }) :=
  (C1_network_error_outcome "m" "00000000" "scan" { foods := [], logs := [] }
    "id1").2 { status_code := 404 } (Or.inl (by decide))

/-- C8 (confirmed): a scan_and_save request whose barcode already has a
row in the store returns the pre-existing row (its to_dict contents, not
the freshly normalized candidate) and leaves the store exactly as it
was; no row is created. -/
theorem C8_already_exists_no_write (db : DBState) (barcode newId : String)
    (food_data : NormalizedRecord) (existing : StoredFood)
    (h : get_food_by_barcode db barcode = some existing) :
    scan_and_save_branch db barcode food_data newId =
      (db, { success := true, barcode := some barcode,
             product_data := some (.stored existing),
             message := "Barcode detected and food already exists in database",
             error := none }) := by
  simp [scan_and_save_branch, h]

/-- C8 witness: the theorem applied to the concrete store dbW that
already holds the barcode, with a distinct fresh candidate. -/
theorem C8_witness_existing_row :
    scan_and_save_branch dbW "00000000" candW "id-new" =
      (dbW, { success := true, barcode := some "00000000",
              product_data := some (.stored storedW),
              message := "Barcode detected and food already exists in database",
              error := none }) :=
  C8_already_exists_no_write dbW "00000000" "id-new" candW storedW (by decide)

/-- C9 (confirmed): an HTTP 200 response whose status field is not 0 but
whose body has no product key makes the subscript at line 291 raise
KeyError; the outer handler maps it to a 500 hard failure, so none of
the normal response outcomes (in particular not the barcode-only one) is
produced. -/
theorem C9_missing_product_maps_to_500 (r : OFFResponse) (b action : String)
    (db : DBState) (newId : String)
    (h200 : r.status_code = 200) (hs : r.status ≠ some 0)
    (hp : r.product = none) :
    upload_after_lookup (.ok r) b action db newId =
      .httpError 500 "Error processing barcode image: \x27product\x27" := by
  have hcond : ¬(r.status_code ≠ 200 ∨ r.status = some 0) := by
    push_neg
    exact ⟨by simp [h200], hs⟩
  simp only [upload_after_lookup, afterLookup]
  rw [if_neg hcond, hp]
  rfl

/-- C9 witness: the theorem applied to a concrete 200 response with
status 1 and no product object. -/
theorem C9_witness_concrete_500 :
    upload_after_lookup (.ok { status_code := 200, status := some 1 })
        "00000000" "scan" { foods := [], logs := [] } "id1" =
      .httpError 500 "Error processing barcode image: \x27product\x27" :=
  C9_missing_product_maps_to_500 { status_code := 200, status := some 1 }
    "00000000" "scan" { foods := [], logs := [] } "id1" rfl (by decide) rfl

/-- C10 (confirmed): a successful quantity update on an existing food
appends exactly one nutrition-log entry whose quantity is the absolute
value of the requested change — non-negative, with the sign of the
change carried only by the action tag — and leaves the foods table
unchanged. -/
theorem C10_log_quantity_is_abs (db : DBState) (food_id : String)
    (quantity_change : ℤ) (action : String) (food : StoredFood)
    (h : get_food_by_id db food_id = some food) :
    update_quantity db food_id quantity_change action =
      ({ db with logs := db.logs ++
          [{ food_id := food_id, quantity := |quantity_change|,
             action := action }] },
       some food) ∧
    0 ≤ |quantity_change| := by
  refine ⟨?_, abs_nonneg _⟩
  simp [update_quantity, h]

/-- C10 witness: removing 4 units (quantity_change = -4) from the
concrete store logs quantity 4 with the removed action tag. -/
theorem C10_witness_negative_change :
    update_quantity dbW "id-existing" (-4) "removed" =
      ({ dbW with
          logs := [{ food_id := "id-existing", quantity := 4,
                     action := "removed" }] },
       some storedW) := by
  have h := (C10_log_quantity_is_abs dbW "id-existing" (-4) "removed" storedW
    (by decide)).1
  rw [h]; decide

end FoodBank
